import Mathlib

/-!
Shallow embedding of the AlloSphere `interactionTutorial` examples.

Float-valued program state is modelled over `ℚ` (exact arithmetic); the
frequency computed with `powf` is modelled over `ℝ`, since the exponent is
not an integer.  External framework objects (Gamma oscillator/envelope,
allolib PolySynth, spatializer, preset handler) are modelled only through
the interface the tutorial code uses: DSP sample streams become functions
from the sample index to a value, and framework calls issued by the glue
code become events in an explicit trace.
-/

namespace InteractionTutorial

/-! ## Voice of the recorder/sequencer tutorial (src/unnamed/part_000)

The voice's mutable state visible to `set`, `setParamFields` and
`getParamFields`: `mX`, `mY`, `mSize` are plain members; `mFreq` stands for
`mSource.freq()`, `mAttack` for `mEnvelope.lengths()[0]`, `mLen1` for
`mEnvelope.lengths()[1]` (set in the constructor, never touched by `set`),
and `mRelease` for `mEnvelope.lengths()[2]`. -/

structure MyVoice where
  mX : ℚ
  mY : ℚ
  mSize : ℚ
  mFreq : ℚ
  mAttack : ℚ
  mLen1 : ℚ
  mRelease : ℚ
deriving DecidableEq

/-- Embeds `MyVoice::set(x, y, size, frequency, attackTime, releaseTime)`:
it assigns `mX`, `mY`, `mSize`, calls `mSource.freq(frequency)` and writes
`mEnvelope.lengths()[0]` and `mEnvelope.lengths()[2]`. -/
def MyVoice.set (v : MyVoice) (x y size frequency attackTime releaseTime : ℚ) :
    MyVoice :=
  { v with
    mX := x, mY := y, mSize := size, mFreq := frequency,
    mAttack := attackTime, mRelease := releaseTime }

/-- Embeds `MyVoice::setParamFields(float *pFields, int numFields)`.  The
C++ body rejects any `numFields != 6` and otherwise forwards
`pFields[0] .. pFields[5]` to `set`, returning `true`.  The float array is
modelled as a list; the result pairs the returned `bool` with the voice
state after the call. -/
def MyVoice.setParamFields (v : MyVoice) (pFields : List ℚ) (numFields : ℤ) :
    Bool × MyVoice :=
  if numFields ≠ 6 then
    (false, v)
  else
    (true, v.set (pFields.getD 0 0) (pFields.getD 1 0) (pFields.getD 2 0)
      (pFields.getD 3 0) (pFields.getD 4 0) (pFields.getD 5 0))

/-- Embeds `MyVoice::getParamFields(float *pFields)`: it writes the six
internal parameters into `pFields[0] .. pFields[5]` and returns `6`.  The
written prefix of the array is modelled as the list of written values,
paired with the returned count. -/
def MyVoice.getParamFields (v : MyVoice) : List ℚ × ℤ :=
  ([v.mX, v.mY, v.mSize, v.mFreq, v.mAttack, v.mRelease], 6)

/-! ## Voice of the spatialization tutorial (src/09_audio_spatialization.cpp)

This variant stores its position in a `Pose` (only the position component is
ever written or read by the tutorial code). -/

structure Pose where
  x : ℚ
  y : ℚ
  z : ℚ
deriving DecidableEq

structure MyVoice09 where
  mPose : Pose
  mSize : ℚ
  mFreq : ℚ
  mAttack : ℚ
  mLen1 : ℚ
  mRelease : ℚ
deriving DecidableEq

/-- Embeds the spatialization tutorial's `MyVoice::set`: it calls
`mPose.pos(x, y, 0)` and then assigns size, frequency and the two envelope
segment lengths exactly like the recorder variant. -/
def MyVoice09.set (v : MyVoice09) (x y size frequency attackTime releaseTime : ℚ) :
    MyVoice09 :=
  { v with
    mPose := ⟨x, y, 0⟩, mSize := size, mFreq := frequency,
    mAttack := attackTime, mRelease := releaseTime }

/-- Embeds the spatialization tutorial's `MyVoice::setParamFields`: same
shape as the recorder variant, forwarding the six fields to `set`. -/
def MyVoice09.setParamFields (v : MyVoice09) (pFields : List ℚ) (numFields : ℤ) :
    Bool × MyVoice09 :=
  if numFields ≠ 6 then
    (false, v)
  else
    (true, v.set (pFields.getD 0 0) (pFields.getD 1 0) (pFields.getD 2 0)
      (pFields.getD 3 0) (pFields.getD 4 0) (pFields.getD 5 0))

/-- Embeds the spatialization tutorial's `MyVoice::getParamFields`: it
writes `mPose.x()`, `mPose.y()`, `mSize`, `mSource.freq()` and the two
envelope lengths, returning `6`. -/
def MyVoice09.getParamFields (v : MyVoice09) : List ℚ × ℤ :=
  ([v.mPose.x, v.mPose.y, v.mSize, v.mFreq, v.mAttack, v.mRelease], 6)

/-! ## Audio-rate behaviour of the two `onProcess(AudioIOData&)` bodies

The Gamma oscillator and envelope are external DSP objects; their outputs
over one audio block are modelled as sample streams `ℕ → ℚ` and the
envelope's `done()` flag after the block as a `Bool`.  `free()` is the
framework call that returns the voice to the pool; whether the body issues
it is recorded in the `freed` field of the result. -/

/-- Result of one `onProcess(AudioIOData&)` call of the recorder voice:
the contents of output channel 0 after the block, and whether `free()`
was called. -/
structure BlockResult where
  out0 : List ℚ
  freed : Bool
deriving DecidableEq

/-- Embeds the recorder voice's `onProcess(AudioIOData&)`: the loop
accumulates `mEnvelope() * mSource() * 0.05` into `io.out(0)` (`+=`), one
frame per iteration over the whole block, and afterwards the voice frees
itself exactly when `mEnvelope.done()` holds.  `envS i` and `srcS i` are
the envelope and oscillator outputs at frame `i`, `envDoneAfter` is
`mEnvelope.done()` after the block, and `out0` holds the prior contents of
output channel 0 (its length is the block's frame count). -/
def MyVoice.onProcessAudio (envS srcS : ℕ → ℚ) (envDoneAfter : Bool)
    (out0 : List ℚ) : BlockResult :=
  { out0 := (List.range out0.length).map
      (fun i => out0.getD i 0 + envS i * srcS i * (5 / 100)),
    freed := envDoneAfter }

/-- One call to `spatializer->renderBuffer(io, pose, buffer, frames)`. -/
structure RenderCall where
  pose : Pose
  buffer : List ℚ
  frames : ℕ
deriving DecidableEq

/-- Result of one `onProcess(AudioIOData&)` call of the spatialization
voice: the contents of bus 0 after the block, the `renderBuffer` call it
issued, and whether `free()` was called. -/
structure Block09Result where
  bus0 : List ℚ
  render : RenderCall
  freed : Bool
deriving DecidableEq

/-- Embeds the spatialization voice's `onProcess(AudioIOData&)`: the loop
assigns `mEnvelope() * mSource() * 0.05` into `io.bus(0)` (plain `=`, one
frame per iteration), then passes the bus-0 buffer, the voice's own
`mPose` and `io.framesPerBuffer()` to the spatializer's `renderBuffer`,
and finally frees the voice exactly when `mEnvelope.done()` holds.
`busInit` holds the prior contents of bus 0; its length is the block's
frame count. -/
def MyVoice09.onProcessAudio (v : MyVoice09) (envS srcS : ℕ → ℚ)
    (envDoneAfter : Bool) (busInit : List ℚ) : Block09Result :=
  let bus := (List.range busInit.length).map
    (fun i => envS i * srcS i * (5 / 100))
  { bus0 := bus,
    render := { pose := v.mPose, buffer := bus, frames := busInit.length },
    freed := envDoneAfter }

/-! ## `MyApp::onSound` of the spatialization tutorial

The body is
`mSpatializer.prepare(io); mSequencer.render(io); mSpatializer.finalize(io);`.
`SynthSequencer::render(AudioIOData&)` is framework code: it invokes
`onProcess` on each currently active voice of its `PolySynth`, and each
such call issues one `renderBuffer` on the shared spatializer.  The calls
the block makes on the spatializer are recorded as an event trace. -/

inductive AudioEvent where
  | prepareCall : AudioEvent
  | renderVoice : ℕ → AudioEvent
  | finalizeCall : AudioEvent
deriving DecidableEq

/-- Embeds `MyApp::onSound(AudioIOData&)` of the spatialization tutorial
as the trace of spatializer calls it produces for one audio block, given
the identities of the voices active in that block: `prepare(io)`, then one
`renderBuffer` per active voice (from `mSequencer.render(io)`), then
`finalize(io)`. -/
def MyApp09.onSoundTrace (activeVoices : List ℕ) : List AudioEvent :=
  AudioEvent.prepareCall ::
    (activeVoices.map AudioEvent.renderVoice ++ [AudioEvent.finalizeCall])

/-! ## Key handling of the sequencer/recorder and spatialization apps

Both `onKeyDown` bodies compute
`freq = 440.0f * powf(2, (midiNote - 69)/12.0f)` from
`midiNote = asciiToMIDI(k.key())` and pass it, together with the five GUI
parameter values, to the fresh voice's `set` before triggering it.  The
power with a non-integer exponent is modelled over `ℝ`. -/

/-- The frequency both `onKeyDown` bodies compute for MIDI note `m`:
`440.0f * powf(2, (midiNote - 69)/12.0f)`. -/
noncomputable def keyFreq (m : ℤ) : ℝ :=
  440 * (2 : ℝ) ^ (((m : ℝ) - 69) / 12)

/-- The arguments `onKeyDown` passes to the fresh voice's `set`, and the
note it triggers. -/
structure TriggerEvent where
  x : ℚ
  y : ℚ
  size : ℚ
  freq : ℝ
  attackTime : ℚ
  releaseTime : ℚ
  midiNote : ℤ

/-- The five GUI parameters read by `onKeyDown` via `.get()`. -/
structure GuiParams where
  xVal : ℚ
  yVal : ℚ
  sizeVal : ℚ
  attackVal : ℚ
  releaseVal : ℚ

/-- Embeds the shared `onKeyDown` body of the sequencer/recorder and
spatialization apps: with `m = asciiToMIDI(k.key())`, the fresh voice is
set to `(X, Y, Size, keyFreq m, AttackTime, ReleaseTime)` and triggered on
note `m`. -/
noncomputable def MyApp.onKeyDownTrigger (p : GuiParams) (m : ℤ) : TriggerEvent :=
  { x := p.xVal, y := p.yVal, size := p.sizeVal, freq := keyFreq m,
    attackTime := p.attackVal, releaseTime := p.releaseVal, midiNote := m }

/-! ## The presets tutorial (src/03_presets.cpp)

The three `Parameter` declarations carry a name, a group, a default value
and a min/max range, exactly as in the constructor arguments. -/

structure ParamDecl where
  name : String
  group : String
  defaultVal : ℚ
  minVal : ℚ
  maxVal : ℚ
deriving DecidableEq

/-- `Parameter X {"X", "Position", 0.0, "", -1.0f, 1.0f}`. -/
def paramX : ParamDecl := ⟨"X", "Position", 0, -1, 1⟩

/-- `Parameter Y {"Y", "Position", 0.0, "", -1.0f, 1.0f}`. -/
def paramY : ParamDecl := ⟨"Y", "Position", 0, -1, 1⟩

/-- `Parameter Size {"Scale", "Size", 1.0, "", 0.1f, 3.0f}`. -/
def paramSize : ParamDecl := ⟨"Scale", "Size", 1, 1 / 10, 3⟩

/-- The keyboard state `onKeyDown` inspects: the key's ASCII code and the
alt modifier. -/
structure Keyb where
  key : ℕ
  alt : Bool
deriving DecidableEq

/-- Embeds allolib's `Keyboard::isNumber()`: the key is one of the ASCII
digit codes 48..57. -/
def Keyb.isNumber (k : Keyb) : Bool :=
  decide (48 ≤ k.key) && decide (k.key ≤ 57)

/-- Embeds allolib's `Keyboard::keyAsNumber()`: the key's ASCII code minus
the code of the digit zero. -/
def Keyb.keyAsNumber (k : Keyb) : ℤ :=
  (k.key : ℤ) - 48

/-- The externally visible action of one `MyApp::onKeyDown` call of the
presets tutorial: store a preset, recall a preset, assign the three
parameters, or do nothing. -/
inductive PresetAction where
  | store : ℤ → String → PresetAction
  | recall : ℤ → PresetAction
  | randomize : ℚ → ℚ → ℚ → PresetAction
  | nothing : PresetAction
deriving DecidableEq

/-- Embeds `MyApp::onKeyDown` of the presets tutorial.  The name string is
`std::to_string(k.keyAsNumber())`.  With alt held, a number key stores a
preset under index `keyAsNumber` and that name; without alt, a number key
recalls index `keyAsNumber`, and the space key (ASCII 32) assigns
`X = uniformS()`, `Y = uniformS()`, `Size = 0.1 + uniform() * 2.0`, where
`rx`, `ry`, `rs` model the three random draws of the call. -/
def presetsOnKeyDown (k : Keyb) (rx ry rs : ℚ) : PresetAction :=
  let presetName := toString k.keyAsNumber
  if k.alt then
    if k.isNumber then PresetAction.store k.keyAsNumber presetName
    else PresetAction.nothing
  else
    if k.isNumber then PresetAction.recall k.keyAsNumber
    else if k.key = 32 then
      PresetAction.randomize rx ry (1 / 10 + rs * 2)
    else PresetAction.nothing

/-- The `PresetHandler` state the tutorial configures: its morph time and
the names of the parameters registered with `<<`.  Storage of the preset
files is framework-internal and not modelled. -/
structure PresetHandlerState where
  morphTime : ℚ
  registered : List String
deriving DecidableEq

/-- Embeds `presetHandler << P` for a parameter `P`. -/
def PresetHandlerState.reg (s : PresetHandlerState) (p : ParamDecl) :
    PresetHandlerState :=
  { s with registered := s.registered ++ [p.name] }

/-- Embeds `presetHandler.setMorphTime(t)`. -/
def PresetHandlerState.setMorphTime (s : PresetHandlerState) (t : ℚ) :
    PresetHandlerState :=
  { s with morphTime := t }

/-- Embeds the `PresetHandler` configuration performed by
`MyApp::onCreate` of the presets tutorial:
`presetHandler << X << Y << Size; presetHandler.setMorphTime(2.0);`. -/
def presetsOnCreateHandler (s : PresetHandlerState) : PresetHandlerState :=
  (((s.reg paramX).reg paramY).reg paramSize).setMorphTime 2

/-- How a `PresetAction` acts on the handler state: storing and recalling
presets read the current morph time but never change it, and no key action
registers or removes parameters.  Recall of morphing itself is framework
code; only the configuration state is tracked. -/
def PresetHandlerState.apply (s : PresetHandlerState) (_a : PresetAction) :
    PresetHandlerState :=
  s

/-- The handler state after `onCreate` followed by any sequence of
`onKeyDown` actions. -/
def presetsHandlerAfter (s : PresetHandlerState) (actions : List PresetAction) :
    PresetHandlerState :=
  actions.foldl PresetHandlerState.apply (presetsOnCreateHandler s)

/-! ## Concrete states used by the witnesses -/

/-- A concrete recorder-voice state. -/
def mvA : MyVoice := ⟨0, 0, 1, 440, 1 / 10, 1 / 2, 1⟩

/-- A concrete spatialization-voice state. -/
def mv09A : MyVoice09 := ⟨⟨0, 0, 0⟩, 1, 440, 1 / 10, 1 / 2, 1⟩

/-! ## Claims -/

/-- C1: in both tutorial variants, `MyVoice::setParamFields(pFields,
numFields)` returns `true` exactly when `numFields = 6`, and in that case
the six internal parameters are set from `pFields` in the order x
position, y position, size, oscillator frequency, envelope attack time,
envelope release time. -/
theorem setParamFields_true_iff_six (v : MyVoice) (w : MyVoice09)
    (p : List ℚ) (n : ℤ) :
    ((v.setParamFields p n).1 = true ↔ n = 6) ∧
    ((w.setParamFields p n).1 = true ↔ n = 6) ∧
    (n = 6 →
      ((v.setParamFields p n).2.mX = p.getD 0 0 ∧
       (v.setParamFields p n).2.mY = p.getD 1 0 ∧
       (v.setParamFields p n).2.mSize = p.getD 2 0 ∧
       (v.setParamFields p n).2.mFreq = p.getD 3 0 ∧
       (v.setParamFields p n).2.mAttack = p.getD 4 0 ∧
       (v.setParamFields p n).2.mRelease = p.getD 5 0) ∧
      ((w.setParamFields p n).2.mPose.x = p.getD 0 0 ∧
       (w.setParamFields p n).2.mPose.y = p.getD 1 0 ∧
       (w.setParamFields p n).2.mSize = p.getD 2 0 ∧
       (w.setParamFields p n).2.mFreq = p.getD 3 0 ∧
       (w.setParamFields p n).2.mAttack = p.getD 4 0 ∧
       (w.setParamFields p n).2.mRelease = p.getD 5 0)) := by
  by_cases h : n = 6 <;>
    simp [MyVoice.setParamFields, MyVoice09.setParamFields,
      MyVoice.set, MyVoice09.set, h]

/-- C1 witness: evaluating `setParamFields` with six concrete fields. -/
theorem setParamFields_true_iff_six_witness :
    (mvA.setParamFields [3, 4, 5, 6, 7, 8] 6).2.mX = 3 ∧
    (mvA.setParamFields [3, 4, 5, 6, 7, 8] 6).2.mRelease = 8 ∧
    (mv09A.setParamFields [3, 4, 5, 6, 7, 8] 6).2.mPose.y = 4 := by
  have h := setParamFields_true_iff_six mvA mv09A [3, 4, 5, 6, 7, 8] 6
  exact ⟨(h.2.2 rfl).1.1, (h.2.2 rfl).1.2.2.2.2.2, (h.2.2 rfl).2.2.1⟩

/-- C2: in both tutorial variants, `getParamFields` writes exactly the six
floats x, y, size, frequency, attack time, release time and returns `6`,
and feeding that array back into `setParamFields` with `numFields = 6`
returns `true` and leaves all six internal parameters unchanged. -/
theorem getParamFields_roundTrip (v : MyVoice) (w : MyVoice09) :
    v.getParamFields.1 = [v.mX, v.mY, v.mSize, v.mFreq, v.mAttack, v.mRelease] ∧
    v.getParamFields.1.length = 6 ∧
    v.getParamFields.2 = 6 ∧
    v.setParamFields v.getParamFields.1 6 = (true, v) ∧
    w.getParamFields.1 =
      [w.mPose.x, w.mPose.y, w.mSize, w.mFreq, w.mAttack, w.mRelease] ∧
    w.getParamFields.1.length = 6 ∧
    w.getParamFields.2 = 6 ∧
    (w.setParamFields w.getParamFields.1 6).1 = true ∧
    (w.setParamFields w.getParamFields.1 6).2.mPose.x = w.mPose.x ∧
    (w.setParamFields w.getParamFields.1 6).2.mPose.y = w.mPose.y ∧
    (w.setParamFields w.getParamFields.1 6).2.mSize = w.mSize ∧
    (w.setParamFields w.getParamFields.1 6).2.mFreq = w.mFreq ∧
    (w.setParamFields w.getParamFields.1 6).2.mAttack = w.mAttack ∧
    (w.setParamFields w.getParamFields.1 6).2.mRelease = w.mRelease := by
  cases v with
  | mk vx vy vs vf va vl vr =>
    cases w with
    | mk wp ws wf wa wl wr =>
      simp [MyVoice.getParamFields, MyVoice09.getParamFields,
        MyVoice.setParamFields, MyVoice09.setParamFields,
        MyVoice.set, MyVoice09.set]

/-- C9: in both tutorial variants, calling `setParamFields` with
`numFields ≠ 6` returns `false` and leaves the whole voice state
untouched: rejection is atomic. -/
theorem setParamFields_reject_atomic (v : MyVoice) (w : MyVoice09)
    (p : List ℚ) (n : ℤ) (h : n ≠ 6) :
    v.setParamFields p n = (false, v) ∧ w.setParamFields p n = (false, w) := by
  simp [MyVoice.setParamFields, MyVoice09.setParamFields, h]

/-- C9 witness: rejection at `numFields = 5`. -/
theorem setParamFields_reject_atomic_witness :
    mvA.setParamFields [3, 4, 5, 6, 7] 5 = (false, mvA) ∧
    mv09A.setParamFields [3, 4, 5, 6, 7] 5 = (false, mv09A) :=
  setParamFields_reject_atomic mvA mv09A [3, 4, 5, 6, 7] 5 (by decide)

/-- C3: in both tutorial variants, one `onProcess(AudioIOData&)` call
frees the voice (returns it to the pool) exactly when the amplitude
envelope reports done after the block; a voice whose envelope is not done
is never freed by `onProcess`. -/
theorem onProcess_frees_iff_done (envS srcS : ℕ → ℚ) (d : Bool)
    (out0 busInit : List ℚ) (v : MyVoice09) :
    ((MyVoice.onProcessAudio envS srcS d out0).freed = true ↔ d = true) ∧
    ((v.onProcessAudio envS srcS d busInit).freed = true ↔ d = true) ∧
    (d = false → (MyVoice.onProcessAudio envS srcS d out0).freed = false) ∧
    (d = false → (v.onProcessAudio envS srcS d busInit).freed = false) := by
  refine ⟨Iff.rfl, Iff.rfl, fun h => ?_, fun h => ?_⟩ <;>
    simp [MyVoice.onProcessAudio, MyVoice09.onProcessAudio, h]

/-- C3 witness: a block with the envelope not yet done leaves the voice
allocated; a block with the envelope done frees it. -/
theorem onProcess_frees_iff_done_witness :
    (MyVoice.onProcessAudio (fun _ => 1) (fun _ => 1) false [0, 0]).freed = false ∧
    (mv09A.onProcessAudio (fun _ => 1) (fun _ => 1) true [0, 0]).freed = true := by
  have h1 := onProcess_frees_iff_done (fun _ => 1) (fun _ => 1) false [0, 0] [0, 0] mv09A
  have h2 := onProcess_frees_iff_done (fun _ => 1) (fun _ => 1) true [0, 0] [0, 0] mv09A
  exact ⟨h1.2.2.1 rfl, h2.2.1.mpr rfl⟩

/-- C4: in the spatialization app's `onSound`, the spatializer's
`prepare(io)` occurs exactly once, as the very first call of the block,
and `finalize(io)` occurs exactly once, as the very last call, whatever
the number of active voices; in between there is exactly one
`renderBuffer` per active voice. -/
theorem onSound_prepare_finalize (voices : List ℕ) :
    (MyApp09.onSoundTrace voices).count AudioEvent.prepareCall = 1 ∧
    (MyApp09.onSoundTrace voices).count AudioEvent.finalizeCall = 1 ∧
    (MyApp09.onSoundTrace voices).head? = some AudioEvent.prepareCall ∧
    (MyApp09.onSoundTrace voices).getLast? = some AudioEvent.finalizeCall ∧
    (MyApp09.onSoundTrace voices).length = voices.length + 2 := by
  have hp : AudioEvent.prepareCall ∉ voices.map AudioEvent.renderVoice := by
    simp
  have hf : AudioEvent.finalizeCall ∉ voices.map AudioEvent.renderVoice := by
    simp
  refine ⟨?_, ?_, rfl, ?_, ?_⟩
  · simp [MyApp09.onSoundTrace, List.count_cons, List.count_append,
      List.count_eq_zero.mpr hp]
  · simp [MyApp09.onSoundTrace, List.count_cons, List.count_append,
      List.count_eq_zero.mpr hf]
  · show (AudioEvent.prepareCall ::
      (voices.map AudioEvent.renderVoice ++ [AudioEvent.finalizeCall])).getLast? =
      some AudioEvent.finalizeCall
    rw [← List.cons_append, List.getLast?_append_cons]
    rfl
  · simp [MyApp09.onSoundTrace]

/-- C5: in the spatialization voice's `onProcess`, every frame of bus 0 is
assigned the value envelope times sine source times 0.05 — the prior
contents of the bus are irrelevant (only the block's frame count matters)
— and the resulting bus-0 buffer is passed, together with the voice's own
pose, to the shared spatializer's `renderBuffer` for the whole block. -/
theorem onProcess09_bus_render (v : MyVoice09) (envS srcS : ℕ → ℚ)
    (d : Bool) (busInit busInit2 : List ℚ) (i : ℕ)
    (hi : i < busInit.length) (hlen : busInit.length = busInit2.length) :
    (v.onProcessAudio envS srcS d busInit).bus0[i]? =
      some (envS i * srcS i * (5 / 100)) ∧
    (v.onProcessAudio envS srcS d busInit).bus0 =
      (v.onProcessAudio envS srcS d busInit2).bus0 ∧
    (v.onProcessAudio envS srcS d busInit).render =
      { pose := v.mPose,
        buffer := (v.onProcessAudio envS srcS d busInit).bus0,
        frames := busInit.length } := by
  refine ⟨?_, ?_, rfl⟩
  · simp [MyVoice09.onProcessAudio, List.getElem?_map, List.getElem?_range, hi]
  · simp [MyVoice09.onProcessAudio, hlen]

/-- C5 witness: a two-frame block with concrete streams, evaluated on a
bus holding stale values. -/
theorem onProcess09_bus_render_witness :
    (mv09A.onProcessAudio (fun i => (i : ℚ)) (fun _ => 2) false [9, 9]).bus0[1]? =
      some ((1 : ℚ) * 2 * (5 / 100)) ∧
    (mv09A.onProcessAudio (fun i => (i : ℚ)) (fun _ => 2) false [9, 9]).bus0 =
      (mv09A.onProcessAudio (fun i => (i : ℚ)) (fun _ => 2) false [0, 1]).bus0 := by
  have h := onProcess09_bus_render mv09A (fun i => (i : ℚ)) (fun _ => 2) false
    [9, 9] [0, 1] 1 (by decide) (by decide)
  exact ⟨h.1, h.2.1⟩

/-- C6: in the presets app, a number key with alt held stores a preset
whose integer index is the key's numeric value and whose name is the
decimal string of that number; a number key without alt recalls the
preset with that numeric index. -/
theorem presets_store_recall (k : Keyb) (rx ry rs : ℚ) :
    (k.alt = true → k.isNumber = true →
      presetsOnKeyDown k rx ry rs =
        PresetAction.store k.keyAsNumber (toString k.keyAsNumber)) ∧
    (k.alt = false → k.isNumber = true →
      presetsOnKeyDown k rx ry rs = PresetAction.recall k.keyAsNumber) := by
  constructor <;> intro ha hn <;> simp [presetsOnKeyDown, ha, hn]

/-- C6 witness: the key `5` (ASCII 53) with and without alt. -/
theorem presets_store_recall_witness :
    presetsOnKeyDown ⟨53, true⟩ 0 0 0 = PresetAction.store 5 "5" ∧
    presetsOnKeyDown ⟨53, false⟩ 0 0 0 = PresetAction.recall 5 := by
  have h1 := (presets_store_recall ⟨53, true⟩ 0 0 0).1 rfl (by decide)
  have h2 := (presets_store_recall ⟨53, false⟩ 0 0 0).2 rfl (by decide)
  refine ⟨?_, ?_⟩
  · rw [h1]; rfl
  · rw [h2]; rfl

/-- C7: in the sequencer/recorder and spatialization apps, the frequency
handed to the freshly obtained voice by `onKeyDown` is
`440 * 2 ^ ((m - 69) / 12)` for the MIDI note `m` derived from the key;
MIDI note 69 yields exactly 440 and note 81 exactly 880. -/
theorem onKeyDown_frequency (p : GuiParams) (m : ℤ) :
    (MyApp.onKeyDownTrigger p m).freq =
      440 * (2 : ℝ) ^ (((m : ℝ) - 69) / 12) ∧
    (MyApp.onKeyDownTrigger p 69).freq = 440 ∧
    (MyApp.onKeyDownTrigger p 81).freq = 880 := by
  refine ⟨rfl, ?_, ?_⟩
  · show (440 : ℝ) * (2 : ℝ) ^ ((((69 : ℤ) : ℝ) - 69) / 12) = 440
    norm_num
  · show (440 : ℝ) * (2 : ℝ) ^ ((((81 : ℤ) : ℝ) - 69) / 12) = 880
    norm_num

/-- C8: the presets app's `onCreate` registers X, Y and Size with the
preset handler and sets the morph time to 2.0 seconds, and no subsequent
key action (store, recall, randomize) ever changes the morph time, so
every later preset recall interpolates the three registered parameters
over 2 seconds. -/
theorem presets_morphTime_two (s : PresetHandlerState)
    (actions : List PresetAction) :
    (presetsOnCreateHandler s).morphTime = 2 ∧
    (presetsOnCreateHandler s).registered =
      s.registered ++ [paramX.name, paramY.name, paramSize.name] ∧
    (presetsHandlerAfter s actions).morphTime = 2 ∧
    (presetsHandlerAfter s actions).registered =
      s.registered ++ [paramX.name, paramY.name, paramSize.name] := by
  have hfold : ∀ (l : List PresetAction) (s0 : PresetHandlerState),
      l.foldl PresetHandlerState.apply s0 = s0 := by
    intro l
    induction l with
    | nil => intro s0; rfl
    | cons a t ih => intro s0; rw [List.foldl_cons]; exact ih _
  refine ⟨rfl, ?_, ?_, ?_⟩
  · simp [presetsOnCreateHandler, PresetHandlerState.reg,
      PresetHandlerState.setMorphTime, paramX, paramY, paramSize]
  · rw [presetsHandlerAfter, hfold]
    rfl
  · rw [presetsHandlerAfter, hfold]
    simp [presetsOnCreateHandler, PresetHandlerState.reg,
      PresetHandlerState.setMorphTime, paramX, paramY, paramSize]

/-- C10: in the presets app, a space press (without alt) assigns
`X = rx ∈ [-1, 1]`, `Y = ry ∈ [-1, 1]` and `Size = 0.1 + rs * 2 ∈
[0.1, 2.1]` for random draws `rx, ry ∈ [-1, 1]` and `rs ∈ [0, 1)`; each
assigned value lies inside the corresponding parameter's declared range,
and Size stays strictly below its declared maximum 3.0. -/
theorem presets_space_randomize (rx ry rs : ℚ)
    (hx1 : -1 ≤ rx) (hx2 : rx ≤ 1) (hy1 : -1 ≤ ry) (hy2 : ry ≤ 1)
    (hs1 : 0 ≤ rs) (hs2 : rs < 1) :
    presetsOnKeyDown ⟨32, false⟩ rx ry rs =
      PresetAction.randomize rx ry (1 / 10 + rs * 2) ∧
    paramX.minVal ≤ rx ∧ rx ≤ paramX.maxVal ∧
    paramY.minVal ≤ ry ∧ ry ≤ paramY.maxVal ∧
    paramSize.minVal ≤ 1 / 10 + rs * 2 ∧
    1 / 10 + rs * 2 ≤ 21 / 10 ∧
    1 / 10 + rs * 2 < paramSize.maxVal := by
  refine ⟨by simp [presetsOnKeyDown, Keyb.isNumber], ?_, ?_, ?_, ?_, ?_, ?_, ?_⟩ <;>
    simp [paramX, paramY, paramSize] <;> linarith

/-- C10 witness: the random draws `rx = 0`, `ry = 0`, `rs = 1/2`. -/
theorem presets_space_randomize_witness :
    presetsOnKeyDown ⟨32, false⟩ 0 0 (1 / 2) =
      PresetAction.randomize 0 0 (1 / 10 + (1 / 2) * 2) ∧
    1 / 10 + (1 / 2 : ℚ) * 2 < paramSize.maxVal := by
  have h := presets_space_randomize 0 0 (1 / 2) (by norm_num) (by norm_num)
    (by norm_num) (by norm_num) (by norm_num) (by norm_num)
  exact ⟨h.1, h.2.2.2.2.2.2.2⟩

end InteractionTutorial
